import Mathlib

/-!
Shallow embedding of the `ecs-fargate` repository: an AWS CDK stack that
declares an ECS Fargate deployment (cluster, task definition, load-balanced
service, secret wiring, security-group rules, one CfnOutput), plus the
string helper `stageTitleCase` from `src/lib/utils.ts`.

The CDK constructor is embedded as a pure function from the two input
parameters (`stageName`, `imageTag`) and an environment of externally
resolved values (VPC, SSM lookups, clock) to a record describing the
declared resource graph.
-/

namespace EcsFargate

/-! ### Constants from src/lib/utils.ts -/

def ECR_REPOSITORY_NAME : String := "server-repository"

def ECS_TASKS_URL : String := "ecs-tasks.amazonaws.com"

def SERVER_SUBNET_NAME : String := "server"

def RDS_SUBNET_NAME : String := "rds"

/-! ### stageTitleCase (src/lib/utils.ts)

The source is
`str.replace(/\w\S*/g, t => t.charAt(0).toUpperCase() + t.substring(1).toLowerCase())`.
Without the `u` flag, `\w` is exactly `[A-Za-z0-9_]` and `\S` is the
complement of the ECMAScript white-space/line-terminator set.  Case maps are
embedded on the ASCII range (the only range `\w` can select for the
uppercased first character; `toLowerCase` agrees with this map on ASCII). -/

/-- ECMAScript `\w` (no `u` flag): `[A-Za-z0-9_]`. -/
def isWordChar (c : Char) : Bool :=
  decide ((65 ≤ c.toNat ∧ c.toNat ≤ 90) ∨ (97 ≤ c.toNat ∧ c.toNat ≤ 122) ∨
    (48 ≤ c.toNat ∧ c.toNat ≤ 57) ∨ c.toNat = 95)

/-- ECMAScript WhiteSpace ∪ LineTerminator (the set `\s` matches; `\S` is its
complement): TAB LF VT FF CR SP NBSP OGHAM-SP, U+2000..U+200A, LS, PS, NNBSP,
MMSP, IDEOGRAPHIC SP, BOM. -/
def isSpaceChar (c : Char) : Bool :=
  decide (c.toNat = 9 ∨ c.toNat = 10 ∨ c.toNat = 11 ∨ c.toNat = 12 ∨
    c.toNat = 13 ∨ c.toNat = 32 ∨ c.toNat = 160 ∨ c.toNat = 5760 ∨
    (8192 ≤ c.toNat ∧ c.toNat ≤ 8202) ∨ c.toNat = 8232 ∨ c.toNat = 8233 ∨
    c.toNat = 8239 ∨ c.toNat = 8287 ∨ c.toNat = 12288 ∨ c.toNat = 65279)

/-- `String.prototype.toUpperCase` restricted to one character, on the ASCII
range (identity elsewhere). -/
def jsToUpper (c : Char) : Char :=
  if 97 ≤ c.toNat ∧ c.toNat ≤ 122 then Char.ofNat (c.toNat - 32) else c

/-- `String.prototype.toLowerCase` on one character, ASCII range
(identity elsewhere). -/
def jsToLower (c : Char) : Char :=
  if 65 ≤ c.toNat ∧ c.toNat ≤ 90 then Char.ofNat (c.toNat + 32) else c

/-- `str.replace(/\w\S*/g, cb)` as a left-to-right scan.  The regex engine
matches a token at the first `\w` character and greedily extends it over
`\S*`; inside a token every further character is part of the current match
(and the callback lowercases it), outside a token a `\w` character starts a
new match (and the callback uppercases it). -/
def titleCaseScan : Bool → List Char → List Char
  | _, [] => []
  | false, c :: rest =>
    if isWordChar c then jsToUpper c :: titleCaseScan true rest
    else c :: titleCaseScan false rest
  | true, c :: rest =>
    if isSpaceChar c then c :: titleCaseScan false rest
    else jsToLower c :: titleCaseScan true rest

/-- The same replacement written the way the regex reads: each match is a
`\w` character followed by the maximal `\S*` run, replaced by
`charAt(0).toUpperCase() + substring(1).toLowerCase()`; unmatched characters
are copied.  Proved equal to `titleCaseScan false` below. -/
def titleCaseTokens : List Char → List Char
  | [] => []
  | c :: rest =>
    if isWordChar c then
      (jsToUpper c :: (rest.takeWhile fun d => !isSpaceChar d).map jsToLower)
        ++ titleCaseTokens (rest.dropWhile fun d => !isSpaceChar d)
    else c :: titleCaseTokens rest
termination_by l => l.length
decreasing_by
  · simp only [List.length_cons]
    exact Nat.lt_succ_of_le (List.dropWhile_sublist _).length_le
  · simp

/-- `stageTitleCase` from src/lib/utils.ts. -/
def stageTitleCase (s : String) : String :=
  (titleCaseScan false s.data).asString

/-! ### Decimal rendering: `Date.now().toString()`

`Date.now()` yields a nonnegative integral Number (milliseconds); its
`toString()` is the base-10 decimal numeral with no sign and no leading
zeros ("0" for zero). -/

/-- Little-endian base-10 digits of `n` (empty for 0). -/
def decDigits (n : Nat) : List Nat :=
  if h : n = 0 then [] else n % 10 :: decDigits (n / 10)
termination_by n
decreasing_by exact Nat.div_lt_self (Nat.pos_of_ne_zero h) (by decide)

/-- Value of a little-endian digit list (left inverse of `decDigits`). -/
def fromDec : List Nat → Nat
  | [] => 0
  | d :: r => d + 10 * fromDec r

/-- JavaScript `Number.prototype.toString` (default radix 10) on the
nonnegative integers produced by `Date.now()`. -/
def jsNatToString (n : Nat) : String :=
  if n = 0 then "0" else ((decDigits n).reverse.map Nat.digitChar).asString

/-! ### Resource-graph data model (aws-cdk-lib constructs used by the stack) -/

/-- `Effect` from aws-cdk-lib/aws-iam. -/
inductive Effect where
  | ALLOW
  | DENY
deriving DecidableEq

/-- `ApplicationProtocol` from aws-cdk-lib/aws-elasticloadbalancingv2. -/
inductive ApplicationProtocol where
  | HTTP
  | HTTPS
deriving DecidableEq

/-- `SubnetType` from aws-cdk-lib/aws-ec2 (the variants this stack can name). -/
inductive SubnetType where
  | PUBLIC
  | PRIVATE_WITH_EGRESS
  | PRIVATE_ISOLATED
deriving DecidableEq

/-- `PolicyStatement` from aws-cdk-lib/aws-iam. -/
structure PolicyStatement where
  effect : Effect
  actions : List String
  resources : List String
deriving DecidableEq

/-- An IAM `Role` together with the statements added via `addToPolicy`. -/
structure Role where
  id : String
  assumedBy : String
  policies : List PolicyStatement
deriving DecidableEq

/-- One entry of the container's `secrets` map:
`ecsSecret.fromSecretsManager(dbSecret, fieldName)` bound to the environment
variable `envName`.  The container receives a reference (secret ARN plus JSON
field name), never the plaintext value. -/
structure SecretBinding where
  envName : String
  secretArn : String
  fieldName : String
deriving DecidableEq

/-- One `addPortMappings` entry. -/
structure PortMapping where
  containerPort : Nat
deriving DecidableEq

/-- The container definition added by `taskDefinition.addContainer`.
`logStreamBase` models the `streamPrefix` of `LogDriver.awsLogs`. -/
structure ContainerDef where
  name : String
  imageRepositoryName : String
  imageTag : String
  environment : List (String × String)
  secrets : List SecretBinding
  logStreamBase : String
  logRetentionDays : Nat
  portMappings : List PortMapping
deriving DecidableEq

/-- `FargateTaskDefinition`, including the statements added via
`addToTaskRolePolicy` and the containers added via `addContainer`. -/
structure FargateTaskDefinition where
  id : String
  memoryLimitMiB : Nat
  cpu : Nat
  executionRoleId : String
  taskRoleId : String
  taskRolePolicies : List PolicyStatement
  containers : List ContainerDef
deriving DecidableEq

/-- `Cluster` from aws-cdk-lib/aws-ecs. -/
structure Cluster where
  id : String
  vpcId : String
deriving DecidableEq

/-- A `SecurityGroup` created by this stack. -/
structure SecurityGroup where
  id : String
  vpcId : String
  allowAllOutbound : Bool
deriving DecidableEq

/-- One `connections.allowFrom(peer, Port.tcp(p), description)` call: an
ingress allow-rule on `onGroupId` admitting traffic from `fromGroupId` on TCP
port `tcpPort`. -/
structure SecurityRule where
  onGroupId : String
  fromGroupId : String
  tcpPort : Nat
  description : String
deriving DecidableEq

/-- `ApplicationLoadBalancedFargateService` from aws-cdk-lib/aws-ecs-patterns. -/
structure LoadBalancedService where
  id : String
  clusterId : String
  taskDefinitionId : String
  publicLoadBalancer : Bool
  assignPublicIp : Bool
  protocol : ApplicationProtocol
  listenerPort : Nat
  securityGroupIds : List String
  taskSubnetType : SubnetType
  loadBalancerDnsName : String
deriving DecidableEq

/-- `CfnOutput`. -/
structure StackOutput where
  id : String
  value : String
deriving DecidableEq

/-- `DeploymentStackProps` (the two per-invocation inputs). -/
structure DeploymentStackProps where
  stageName : String
  imageTag : String
deriving DecidableEq

/-- Externally resolved values the constructor consumes.  `vpcId` models the
`getVpc` lookup, `rdsSecretName` and `rdsSecurityGroupId` the two
`StringParameter.valueFromLookup` SSM reads (the SSM key constants and
`getVpc` live in a part of utils.ts not present in this snapshot; the spec
describes them as resolver lookups), `secretArnOfName` the ARN that
`Secret.fromSecretNameV2` derives for a secret name, `lbDnsName` the value
the engine substitutes for `loadBalancer.loadBalancerDnsName`, and `now` the
`Date.now()` reading in milliseconds. -/
structure Env where
  vpcId : String
  rdsSecretName : String
  rdsSecurityGroupId : String
  secretArnOfName : String → String
  lbDnsName : String
  now : Nat

/-- The resource graph registered by one run of the `DeploymentStack`
constructor. -/
structure DeploymentStack where
  clusters : List Cluster
  roles : List Role
  taskDefinitions : List FargateTaskDefinition
  securityGroups : List SecurityGroup
  services : List LoadBalancedService
  securityRules : List SecurityRule
  outputs : List StackOutput
deriving DecidableEq

/-- The `DeploymentStack` constructor (src/unnamed/part_000), resource by
resource in source order. -/
def mkDeploymentStack (env : Env) (props : DeploymentStackProps) : DeploymentStack :=
  let stageName := props.stageName
  let stageTitle := stageTitleCase stageName
  let dbSecretArn := env.secretArnOfName env.rdsSecretName
  let secretsManagerPermissions : PolicyStatement :=
    { effect := Effect.ALLOW
      actions := ["secretsmanager:GetSecretValue"]
      resources := [dbSecretArn] }
  let ecsCluster : Cluster :=
    { id := "ECS" ++ stageTitle ++ "-Cluster", vpcId := env.vpcId }
  let executionRole : Role :=
    { id := stageTitle ++ "ExecutionRole"
      assumedBy := ECS_TASKS_URL
      policies :=
        [{ effect := Effect.ALLOW
           resources := ["*"]
           actions :=
             [ "ecr:GetAuthorizationToken"
             , "ecr:BatchCheckLayerAvailability"
             , "ecr:GetDownloadUrlForLayer"
             , "ecr:BatchGetImage"
             , "logs:CreateLogStream"
             , "logs:PutLogEvents" ] }] }
  let taskRole : Role :=
    { id := stageTitle ++ "TaskRole", assumedBy := ECS_TASKS_URL, policies := [] }
  let container : ContainerDef :=
    { name := stageTitle ++ "Container"
      imageRepositoryName := ECR_REPOSITORY_NAME
      imageTag := props.imageTag
      environment := [("FORCE_DEPLOYMENT_ENV_VAR", jsNatToString env.now)]
      secrets :=
        [ { envName := "DBHOST", secretArn := dbSecretArn, fieldName := "host" }
        , { envName := "DBNAME", secretArn := dbSecretArn, fieldName := "dbname" }
        , { envName := "DBUSER", secretArn := dbSecretArn, fieldName := "username" }
        , { envName := "DBPASS", secretArn := dbSecretArn, fieldName := "password" }
        , { envName := "DBPORT", secretArn := dbSecretArn, fieldName := "port" } ]
      logStreamBase := stageTitle ++ "Logs"
      logRetentionDays := 14
      portMappings := [{ containerPort := 3000 }] }
  let taskDefinition : FargateTaskDefinition :=
    { id := "TaskDef-" ++ stageName
      memoryLimitMiB := 512
      cpu := 256
      executionRoleId := executionRole.id
      taskRoleId := taskRole.id
      taskRolePolicies := [secretsManagerPermissions]
      containers := [container] }
  let fargateSecurityGroup : SecurityGroup :=
    { id := stageTitle ++ "FargateSecurityGroup"
      vpcId := env.vpcId
      allowAllOutbound := true }
  let fargateService : LoadBalancedService :=
    { id := stageTitle ++ "Service"
      clusterId := ecsCluster.id
      taskDefinitionId := taskDefinition.id
      publicLoadBalancer := true
      assignPublicIp := true
      protocol := ApplicationProtocol.HTTP
      listenerPort := 80
      securityGroupIds := [fargateSecurityGroup.id]
      taskSubnetType := SubnetType.PUBLIC
      loadBalancerDnsName := env.lbDnsName }
  { clusters := [ecsCluster]
    roles := [executionRole, taskRole]
    taskDefinitions := [taskDefinition]
    securityGroups := [fargateSecurityGroup]
    services := [fargateService]
    securityRules :=
      [ { onGroupId := env.rdsSecurityGroupId
          fromGroupId := fargateSecurityGroup.id
          tcpPort := 5432
          description := "Allow traffic from fargate/ECS" }
      , { onGroupId := fargateSecurityGroup.id
          fromGroupId := env.rdsSecurityGroupId
          tcpPort := 5432
          description := "Allow traffic from RDS" } ]
    outputs :=
      [{ id := "LoadBalancer" ++ stageTitle ++ "DNS"
         value := fargateService.loadBalancerDnsName }] }

/-! ### Functional view: the resource graph with stage-derived identifiers and
log-stream naming erased -/

/-- Behavioral fields of a role (identifier erased). -/
structure RoleView where
  assumedBy : String
  policies : List PolicyStatement
deriving DecidableEq

/-- Behavioral fields of a container (name and log-stream naming erased). -/
structure ContainerView where
  imageRepositoryName : String
  imageTag : String
  environment : List (String × String)
  secrets : List SecretBinding
  logRetentionDays : Nat
  portMappings : List PortMapping
deriving DecidableEq

/-- Behavioral fields of a task definition (identifiers erased). -/
structure TaskDefView where
  memoryLimitMiB : Nat
  cpu : Nat
  taskRolePolicies : List PolicyStatement
  containers : List ContainerView
deriving DecidableEq

/-- Behavioral fields of the load-balanced service (identifiers erased). -/
structure ServiceView where
  publicLoadBalancer : Bool
  assignPublicIp : Bool
  protocol : ApplicationProtocol
  listenerPort : Nat
  taskSubnetType : SubnetType
  loadBalancerDnsName : String
deriving DecidableEq

/-- Behavioral fields of a security rule (group identifiers erased; the
constant description strings record the rule's direction). -/
structure RuleView where
  tcpPort : Nat
  description : String
deriving DecidableEq

/-- All functional fields of the stack: everything except resource
identifiers and log-stream naming. -/
structure FunctionalView where
  clusterVpcIds : List String
  roles : List RoleView
  taskDefinitions : List TaskDefView
  securityGroupOutbound : List Bool
  services : List ServiceView
  securityRules : List RuleView
  outputValues : List String
deriving DecidableEq

/-- Project a stack onto its functional fields. -/
def functionalView (st : DeploymentStack) : FunctionalView :=
  { clusterVpcIds := st.clusters.map Cluster.vpcId
    roles := st.roles.map fun r => { assumedBy := r.assumedBy, policies := r.policies }
    taskDefinitions := st.taskDefinitions.map fun td =>
      { memoryLimitMiB := td.memoryLimitMiB
        cpu := td.cpu
        taskRolePolicies := td.taskRolePolicies
        containers := td.containers.map fun c =>
          { imageRepositoryName := c.imageRepositoryName
            imageTag := c.imageTag
            environment := c.environment
            secrets := c.secrets
            logRetentionDays := c.logRetentionDays
            portMappings := c.portMappings } }
    securityGroupOutbound := st.securityGroups.map SecurityGroup.allowAllOutbound
    services := st.services.map fun s =>
      { publicLoadBalancer := s.publicLoadBalancer
        assignPublicIp := s.assignPublicIp
        protocol := s.protocol
        listenerPort := s.listenerPort
        taskSubnetType := s.taskSubnetType
        loadBalancerDnsName := s.loadBalancerDnsName }
    securityRules := st.securityRules.map fun r =>
      { tcpPort := r.tcpPort, description := r.description }
    outputValues := st.outputs.map StackOutput.value }

/-- All values bound to `FORCE_DEPLOYMENT_ENV_VAR` across the stack's
containers. -/
def forceDeploymentValues (st : DeploymentStack) : List String :=
  st.taskDefinitions.flatMap fun td =>
    td.containers.flatMap fun c =>
      (c.environment.filter fun kv => kv.1 == "FORCE_DEPLOYMENT_ENV_VAR").map
        fun kv => kv.2

/-! ### Concrete sample inputs -/

/-- A concrete resolver environment for witness instances. -/
def sampleEnv : Env :=
  { vpcId := "vpc-0123"
    rdsSecretName := "rds-credentials"
    rdsSecurityGroupId := "sg-0456"
    secretArnOfName := fun n =>
      "arn:aws:secretsmanager:us-east-1:111122223333:secret:" ++ n
    lbDnsName := "alb-789.us-east-1.elb.amazonaws.com"
    now := 1700000000000 }

/-- `sampleEnv` read one millisecond later. -/
def sampleEnvLater : Env :=
  { sampleEnv with now := 1700000000001 }

/-- The end-to-end scenario inputs from the spec. -/
def stagingProps : DeploymentStackProps :=
  { stageName := "staging", imageTag := "abc123" }

/-- A second parameter set whose stage title-cases differently. -/
def productionProps : DeploymentStackProps :=
  { stageName := "production", imageTag := "abc123" }

/-! ### Character-level lemmas -/

theorem toNat_ofNat_lt {n : Nat} (h : n < 55296) : (Char.ofNat n).toNat = n := by
  have hv : n.isValidChar := Or.inl h
  simp only [Char.ofNat, hv, dif_pos]
  rfl

theorem isWordChar_iff {c : Char} : isWordChar c = true ↔
    ((65 ≤ c.toNat ∧ c.toNat ≤ 90) ∨ (97 ≤ c.toNat ∧ c.toNat ≤ 122) ∨
      (48 ≤ c.toNat ∧ c.toNat ≤ 57) ∨ c.toNat = 95) := by
  simp [isWordChar]

theorem isSpaceChar_iff {c : Char} : isSpaceChar c = true ↔
    (c.toNat = 9 ∨ c.toNat = 10 ∨ c.toNat = 11 ∨ c.toNat = 12 ∨
      c.toNat = 13 ∨ c.toNat = 32 ∨ c.toNat = 160 ∨ c.toNat = 5760 ∨
      (8192 ≤ c.toNat ∧ c.toNat ≤ 8202) ∨ c.toNat = 8232 ∨ c.toNat = 8233 ∨
      c.toNat = 8239 ∨ c.toNat = 8287 ∨ c.toNat = 12288 ∨ c.toNat = 65279) := by
  simp [isSpaceChar]

theorem toNat_jsToUpper_hi {c : Char} (h : 97 ≤ c.toNat ∧ c.toNat ≤ 122) :
    (jsToUpper c).toNat = c.toNat - 32 := by
  rw [jsToUpper, if_pos h]
  exact toNat_ofNat_lt (by omega)

theorem jsToUpper_eq_self {c : Char} (h : ¬(97 ≤ c.toNat ∧ c.toNat ≤ 122)) :
    jsToUpper c = c := by
  rw [jsToUpper, if_neg h]

theorem toNat_jsToLower_hi {c : Char} (h : 65 ≤ c.toNat ∧ c.toNat ≤ 90) :
    (jsToLower c).toNat = c.toNat + 32 := by
  rw [jsToLower, if_pos h]
  exact toNat_ofNat_lt (by omega)

theorem jsToLower_eq_self {c : Char} (h : ¬(65 ≤ c.toNat ∧ c.toNat ≤ 90)) :
    jsToLower c = c := by
  rw [jsToLower, if_neg h]

theorem jsToUpper_idem (c : Char) : jsToUpper (jsToUpper c) = jsToUpper c := by
  by_cases h : 97 ≤ c.toNat ∧ c.toNat ≤ 122
  · have ht := toNat_jsToUpper_hi h
    exact jsToUpper_eq_self (by omega)
  · rw [jsToUpper_eq_self h]
    exact jsToUpper_eq_self h

theorem jsToLower_idem (c : Char) : jsToLower (jsToLower c) = jsToLower c := by
  by_cases h : 65 ≤ c.toNat ∧ c.toNat ≤ 90
  · have ht := toNat_jsToLower_hi h
    exact jsToLower_eq_self (by omega)
  · rw [jsToLower_eq_self h]
    exact jsToLower_eq_self h

theorem isWordChar_jsToUpper {c : Char} (h : isWordChar c = true) :
    isWordChar (jsToUpper c) = true := by
  by_cases hc : 97 ≤ c.toNat ∧ c.toNat ≤ 122
  · have ht := toNat_jsToUpper_hi hc
    rw [isWordChar_iff]
    omega
  · rw [jsToUpper_eq_self hc]
    exact h

theorem isSpaceChar_jsToLower (c : Char) :
    isSpaceChar (jsToLower c) = isSpaceChar c := by
  by_cases hc : 65 ≤ c.toNat ∧ c.toNat ≤ 90
  · have ht := toNat_jsToLower_hi hc
    have h1 : ¬ isSpaceChar (jsToLower c) = true := fun hsp => by
      rw [isSpaceChar_iff] at hsp; omega
    have h2 : ¬ isSpaceChar c = true := fun hsp => by
      rw [isSpaceChar_iff] at hsp; omega
    simp only [Bool.not_eq_true] at h1 h2
    rw [h1, h2]
  · rw [jsToLower_eq_self hc]

theorem isWordChar_eq_false_of_space {c : Char} (h : isSpaceChar c = true) :
    isWordChar c = false := by
  rw [isSpaceChar_iff] at h
  have hw : ¬ isWordChar c = true := fun hw => by rw [isWordChar_iff] at hw; omega
  simpa using hw

/-! ### The scan computes the regex replacement -/

theorem titleCaseScan_true_eq (l : List Char) :
    titleCaseScan true l =
      ((l.takeWhile fun d => !isSpaceChar d).map jsToLower) ++
        titleCaseScan false (l.dropWhile fun d => !isSpaceChar d) := by
  induction l with
  | nil => simp [titleCaseScan]
  | cons d r ih =>
    by_cases hd : isSpaceChar d = true
    · simp only [List.takeWhile_cons, List.dropWhile_cons, hd, Bool.not_true,
        Bool.false_eq_true, if_false, List.map_nil, List.nil_append]
      rw [show titleCaseScan true (d :: r) = d :: titleCaseScan false r from by
        simp [titleCaseScan, hd]]
      rw [show titleCaseScan false (d :: r) = d :: titleCaseScan false r from by
        simp [titleCaseScan, isWordChar_eq_false_of_space hd]]
    · have hd' : isSpaceChar d = false := by simpa using hd
      rw [List.takeWhile_cons, List.dropWhile_cons]
      rw [show titleCaseScan true (d :: r) = jsToLower d :: titleCaseScan true r from by
        simp [titleCaseScan, hd']]
      simp [hd', ih]

theorem titleCaseTokens_eq_scan (l : List Char) :
    titleCaseTokens l = titleCaseScan false l := by
  suffices h : ∀ n (l : List Char), l.length ≤ n →
      titleCaseTokens l = titleCaseScan false l from h l.length l le_rfl
  intro n
  induction n with
  | zero =>
    intro l hl
    cases l with
    | nil => simp [titleCaseTokens, titleCaseScan]
    | cons c r => simp at hl
  | succ n ih =>
    intro l hl
    cases l with
    | nil => simp [titleCaseTokens, titleCaseScan]
    | cons c r =>
      by_cases hc : isWordChar c = true
      · rw [show titleCaseScan false (c :: r) = jsToUpper c :: titleCaseScan true r from by
          simp [titleCaseScan, hc]]
        rw [titleCaseScan_true_eq]
        rw [titleCaseTokens, if_pos hc]
        rw [ih (r.dropWhile fun d => !isSpaceChar d)
          (le_trans (List.dropWhile_sublist _).length_le (by simpa using hl))]
        simp
      · have hc' : isWordChar c = false := by simpa using hc
        rw [titleCaseTokens, if_neg hc]
        rw [show titleCaseScan false (c :: r) = c :: titleCaseScan false r from by
          simp [titleCaseScan, hc']]
        rw [ih r (by simpa using hl)]

/-! ### Idempotence of the scan -/

theorem titleCaseScan_idem (l : List Char) :
    titleCaseScan false (titleCaseScan false l) = titleCaseScan false l ∧
    titleCaseScan true (titleCaseScan true l) = titleCaseScan true l := by
  induction l with
  | nil => simp [titleCaseScan]
  | cons c r ih =>
    refine ⟨?_, ?_⟩
    · by_cases hc : isWordChar c = true
      · rw [show titleCaseScan false (c :: r) = jsToUpper c :: titleCaseScan true r from by
          simp [titleCaseScan, hc]]
        rw [show titleCaseScan false (jsToUpper c :: titleCaseScan true r)
            = jsToUpper (jsToUpper c) :: titleCaseScan true (titleCaseScan true r) from by
          simp [titleCaseScan, isWordChar_jsToUpper hc]]
        rw [jsToUpper_idem, ih.2]
      · have hc' : isWordChar c = false := by simpa using hc
        rw [show titleCaseScan false (c :: r) = c :: titleCaseScan false r from by
          simp [titleCaseScan, hc']]
        rw [show titleCaseScan false (c :: titleCaseScan false r)
            = c :: titleCaseScan false (titleCaseScan false r) from by
          simp [titleCaseScan, hc']]
        rw [ih.1]
    · by_cases hd : isSpaceChar c = true
      · rw [show titleCaseScan true (c :: r) = c :: titleCaseScan false r from by
          simp [titleCaseScan, hd]]
        rw [show titleCaseScan true (c :: titleCaseScan false r)
            = c :: titleCaseScan false (titleCaseScan false r) from by
          simp [titleCaseScan, hd]]
        rw [ih.1]
      · have hd' : isSpaceChar c = false := by simpa using hd
        have hld : isSpaceChar (jsToLower c) = false := by
          rw [isSpaceChar_jsToLower, hd']
        rw [show titleCaseScan true (c :: r) = jsToLower c :: titleCaseScan true r from by
          simp [titleCaseScan, hd']]
        rw [show titleCaseScan true (jsToLower c :: titleCaseScan true r)
            = jsToLower (jsToLower c) :: titleCaseScan true (titleCaseScan true r) from by
          simp [titleCaseScan, hld]]
        rw [jsToLower_idem, ih.2]

theorem data_asString (l : List Char) : (List.asString l).data = l := rfl

/-! ### Injectivity of the decimal rendering -/

theorem fromDec_decDigits (n : Nat) : fromDec (decDigits n) = n := by
  induction n using Nat.strong_induction_on with
  | _ n ih =>
    by_cases h : n = 0
    · subst h
      rw [decDigits]
      simp [fromDec]
    · rw [decDigits, dif_neg h]
      simp only [fromDec]
      rw [ih (n / 10) (Nat.div_lt_self (Nat.pos_of_ne_zero h) (by decide))]
      omega

theorem decDigits_lt_ten (n : Nat) : ∀ d ∈ decDigits n, d < 10 := by
  induction n using Nat.strong_induction_on with
  | _ n ih =>
    by_cases h : n = 0
    · subst h
      rw [decDigits]
      simp
    · rw [decDigits, dif_neg h]
      intro d hd
      rcases List.mem_cons.mp hd with h1 | h2
      · rw [h1]; omega
      · exact ih (n / 10) (Nat.div_lt_self (Nat.pos_of_ne_zero h) (by decide)) d h2

theorem digitChar_inj_lt :
    ∀ a, a < 10 → ∀ b, b < 10 → Nat.digitChar a = Nat.digitChar b → a = b := by
  decide

theorem map_digitChar_inj :
    ∀ (l₁ l₂ : List Nat), (∀ d ∈ l₁, d < 10) → (∀ d ∈ l₂, d < 10) →
      l₁.map Nat.digitChar = l₂.map Nat.digitChar → l₁ = l₂ := by
  intro l₁
  induction l₁ with
  | nil =>
    intro l₂ _ _ h
    cases l₂ with
    | nil => rfl
    | cons b u => simp at h
  | cons a t ih =>
    intro l₂ h₁ h₂ h
    cases l₂ with
    | nil => simp at h
    | cons b u =>
      simp only [List.map_cons, List.cons.injEq] at h
      have hab : a = b :=
        digitChar_inj_lt a (h₁ a (List.mem_cons_self a t))
          b (h₂ b (List.mem_cons_self b u)) h.1
      subst hab
      rw [ih u (fun d hd => h₁ d (List.mem_cons_of_mem _ hd))
        (fun d hd => h₂ d (List.mem_cons_of_mem _ hd)) h.2]

theorem jsNatToString_ne_zero_str {b : Nat} (hb : b ≠ 0) :
    jsNatToString b ≠ "0" := by
  intro h
  rw [jsNatToString, if_neg hb] at h
  have hd := congrArg String.data h
  rw [data_asString] at hd
  rw [show ("0" : String).data = ['0'] from rfl] at hd
  cases hrev : (decDigits b).reverse with
  | nil => rw [hrev] at hd; simp at hd
  | cons d t =>
    rw [hrev] at hd
    simp only [List.map_cons, List.cons.injEq] at hd
    have ht : t = [] := by
      cases t with
      | nil => rfl
      | cons x u => simp at hd
    have hdd : decDigits b = [d] := by
      have hr := congrArg List.reverse hrev
      rw [List.reverse_reverse] at hr
      rw [hr, ht]
      rfl
    have hlt : d < 10 := decDigits_lt_ten b d (by rw [hdd]; exact List.mem_cons_self d [])
    have hd0 : d = 0 := by
      apply digitChar_inj_lt d hlt 0 (by decide)
      rw [hd.1]
      decide
    have hv := fromDec_decDigits b
    rw [hdd, hd0] at hv
    simp [fromDec] at hv
    exact hb hv.symm

theorem jsNatToString_inj {a b : Nat} (h : jsNatToString a = jsNatToString b) :
    a = b := by
  by_cases ha : a = 0 <;> by_cases hb : b = 0
  · rw [ha, hb]
  · exfalso
    apply jsNatToString_ne_zero_str hb
    rw [← h, jsNatToString, if_pos ha]
  · exfalso
    apply jsNatToString_ne_zero_str ha
    rw [h, jsNatToString, if_pos hb]
  · rw [jsNatToString, if_neg ha, jsNatToString, if_neg hb] at h
    have hd := congrArg String.data h
    rw [data_asString, data_asString] at hd
    have hrev := map_digitChar_inj _ _
      (fun d hdm => decDigits_lt_ten a d (List.mem_reverse.mp hdm))
      (fun d hdm => decDigits_lt_ten b d (List.mem_reverse.mp hdm)) hd
    have hdec : decDigits a = decDigits b := by
      have hr := congrArg List.reverse hrev
      simpa [List.reverse_reverse] using hr
    have hv := congrArg fromDec hdec
    rw [fromDec_decDigits, fromDec_decDigits] at hv
    exact hv

/-! ### Claim theorems -/

/-- C1: for every valid {stage, imageTag} pair (and resolver environment),
one run of the DeploymentStack constructor creates exactly one cluster,
exactly one task specification, exactly one load-balanced service, exactly
one published output, and exactly two directional security allow-rules for
TCP port 5432 — store→service and service→store — no more and no fewer. -/
theorem c1_assembly_counts (env : Env) (props : DeploymentStackProps) :
    (mkDeploymentStack env props).clusters.length = 1 ∧
    (mkDeploymentStack env props).taskDefinitions.length = 1 ∧
    (mkDeploymentStack env props).services.length = 1 ∧
    (mkDeploymentStack env props).outputs.length = 1 ∧
    (mkDeploymentStack env props).securityRules =
      [ { onGroupId := env.rdsSecurityGroupId
          fromGroupId := stageTitleCase props.stageName ++ "FargateSecurityGroup"
          tcpPort := 5432
          description := "Allow traffic from fargate/ECS" }
      , { onGroupId := stageTitleCase props.stageName ++ "FargateSecurityGroup"
          fromGroupId := env.rdsSecurityGroupId
          tcpPort := 5432
          description := "Allow traffic from RDS" } ] :=
  ⟨rfl, rfl, rfl, rfl, rfl⟩

/-- C2: for every valid input pair (the spec instantiates stage="staging",
imageTag="abc123"), the task specification exposes container port 3000, the
service listens on port 80 with the HTTP protocol on a public-facing load
balancer, and the single published output value is the load balancer's
hostname, non-empty whenever the resolved hostname is non-empty. -/
theorem c2_service_shape (env : Env) (props : DeploymentStackProps)
    (h : env.lbDnsName ≠ "") :
    ((mkDeploymentStack env props).taskDefinitions.map fun td =>
        td.containers.map ContainerDef.portMappings) =
      [[[{ containerPort := 3000 }]]] ∧
    ((mkDeploymentStack env props).services.map fun s =>
        (s.listenerPort, s.protocol, s.publicLoadBalancer)) =
      [(80, ApplicationProtocol.HTTP, true)] ∧
    (mkDeploymentStack env props).outputs =
      [{ id := "LoadBalancer" ++ stageTitleCase props.stageName ++ "DNS"
         value := env.lbDnsName }] ∧
    ∀ o ∈ (mkDeploymentStack env props).outputs, o.value ≠ "" := by
  refine ⟨rfl, rfl, rfl, ?_⟩
  intro o ho
  have h3 : (mkDeploymentStack env props).outputs =
      [{ id := "LoadBalancer" ++ stageTitleCase props.stageName ++ "DNS"
         value := env.lbDnsName }] := rfl
  rw [h3, List.mem_singleton] at ho
  rw [ho]
  exact h

/-- Witness for C2 at stage="staging", imageTag="abc123" with a concrete
resolver environment. -/
theorem c2_service_shape_witness :
    sampleEnv.lbDnsName ≠ "" ∧
    (((mkDeploymentStack sampleEnv stagingProps).taskDefinitions.map fun td =>
        td.containers.map ContainerDef.portMappings) =
      [[[{ containerPort := 3000 }]]] ∧
    ((mkDeploymentStack sampleEnv stagingProps).services.map fun s =>
        (s.listenerPort, s.protocol, s.publicLoadBalancer)) =
      [(80, ApplicationProtocol.HTTP, true)] ∧
    (mkDeploymentStack sampleEnv stagingProps).outputs =
      [{ id := "LoadBalancer" ++ stageTitleCase stagingProps.stageName ++ "DNS"
         value := sampleEnv.lbDnsName }] ∧
    ∀ o ∈ (mkDeploymentStack sampleEnv stagingProps).outputs, o.value ≠ "") :=
  ⟨by decide, c2_service_shape sampleEnv stagingProps (by decide)⟩

/-- C3: for every valid input pair, the container's secret bindings are
exactly the five named fields host, dbname, username, password, port of the
resolved database secret, each as a secret reference (ARN + field name); the
only plaintext environment variable is the forced-redeployment value, so no
secret field is ever passed in plaintext. -/
theorem c3_secret_bindings (env : Env) (props : DeploymentStackProps) :
    ((mkDeploymentStack env props).taskDefinitions.map fun td =>
        td.containers.map ContainerDef.secrets) =
      [[[ { envName := "DBHOST"
            secretArn := env.secretArnOfName env.rdsSecretName
            fieldName := "host" }
        , { envName := "DBNAME"
            secretArn := env.secretArnOfName env.rdsSecretName
            fieldName := "dbname" }
        , { envName := "DBUSER"
            secretArn := env.secretArnOfName env.rdsSecretName
            fieldName := "username" }
        , { envName := "DBPASS"
            secretArn := env.secretArnOfName env.rdsSecretName
            fieldName := "password" }
        , { envName := "DBPORT"
            secretArn := env.secretArnOfName env.rdsSecretName
            fieldName := "port" } ]]] ∧
    ((mkDeploymentStack env props).taskDefinitions.map fun td =>
        td.containers.map fun c => c.secrets.map SecretBinding.fieldName) =
      [[["host", "dbname", "username", "password", "port"]]] ∧
    ((mkDeploymentStack env props).taskDefinitions.map fun td =>
        td.containers.map ContainerDef.environment) =
      [[[("FORCE_DEPLOYMENT_ENV_VAR", jsNatToString env.now)]]] :=
  ⟨rfl, rfl, rfl⟩

/-- C4: for every valid input pair, the execution role's policy is the
explicit six-action list for pulling an ECR image and writing logs, and none
of the actions granted on any role contains a wildcard. -/
theorem c4_execution_role_actions (env : Env) (props : DeploymentStackProps) :
    ((mkDeploymentStack env props).roles.map fun r => (r.assumedBy, r.policies)) =
      [ (ECS_TASKS_URL,
          [{ effect := Effect.ALLOW
             actions :=
               [ "ecr:GetAuthorizationToken"
               , "ecr:BatchCheckLayerAvailability"
               , "ecr:GetDownloadUrlForLayer"
               , "ecr:BatchGetImage"
               , "logs:CreateLogStream"
               , "logs:PutLogEvents" ]
             resources := ["*"] }])
      , (ECS_TASKS_URL, []) ] ∧
    ((mkDeploymentStack env props).roles.all fun r =>
      r.policies.all fun p => p.actions.all fun a =>
        !(a.data.contains '*')) = true :=
  ⟨rfl, rfl⟩

/-- C5: the title-cased derivative of the stage name is used purely for
naming: two runs over the same resolver environment with the same image tag
but differently title-cased stage names produce identical functional views
(ports, protocol, memory/CPU, permissions, secret bindings, rule directions),
while their resource identifiers (here: the cluster identifiers) differ. -/
theorem c5_title_only_naming (env : Env) (p1 p2 : DeploymentStackProps)
    (htag : p1.imageTag = p2.imageTag)
    (hne : stageTitleCase p1.stageName ≠ stageTitleCase p2.stageName) :
    functionalView (mkDeploymentStack env p1) =
      functionalView (mkDeploymentStack env p2) ∧
    (mkDeploymentStack env p1).clusters.map Cluster.id ≠
      (mkDeploymentStack env p2).clusters.map Cluster.id := by
  constructor
  · simp [mkDeploymentStack, functionalView, htag]
  · intro hid
    apply hne
    have hd : (("ECS" ++ stageTitleCase p1.stageName ++ "-Cluster" : String)).data
        = (("ECS" ++ stageTitleCase p2.stageName ++ "-Cluster" : String)).data :=
      congrArg (fun l => (List.headI l).data) hid
    rw [String.data_append, String.data_append, String.data_append,
      String.data_append] at hd
    exact String.toList_inj.mp (List.append_cancel_left (List.append_cancel_right hd))

/-- Witness for C5 at stage names "staging" and "production" with the same
image tag and a concrete resolver environment. -/
theorem c5_title_only_naming_witness :
    stagingProps.imageTag = productionProps.imageTag ∧
    stageTitleCase stagingProps.stageName ≠ stageTitleCase productionProps.stageName ∧
    (functionalView (mkDeploymentStack sampleEnv stagingProps) =
        functionalView (mkDeploymentStack sampleEnv productionProps) ∧
      (mkDeploymentStack sampleEnv stagingProps).clusters.map Cluster.id ≠
        (mkDeploymentStack sampleEnv productionProps).clusters.map Cluster.id) :=
  ⟨rfl, by decide,
    c5_title_only_naming sampleEnv stagingProps productionProps rfl (by decide)⟩

/-- C6: two assembly passes at distinct clock readings, with identical stage
name and image tag, bind different values to FORCE_DEPLOYMENT_ENV_VAR. -/
theorem c6_force_redeploy (env1 env2 : Env) (props : DeploymentStackProps)
    (h : env1.now ≠ env2.now) :
    forceDeploymentValues (mkDeploymentStack env1 props) ≠
      forceDeploymentValues (mkDeploymentStack env2 props) := by
  have h1 : forceDeploymentValues (mkDeploymentStack env1 props)
      = [jsNatToString env1.now] := rfl
  have h2 : forceDeploymentValues (mkDeploymentStack env2 props)
      = [jsNatToString env2.now] := rfl
  rw [h1, h2]
  intro hc
  simp only [List.cons.injEq, and_true] at hc
  exact h (jsNatToString_inj hc)

/-- Witness for C6: the sample environment read at two consecutive
milliseconds. -/
theorem c6_force_redeploy_witness :
    sampleEnv.now ≠ sampleEnvLater.now ∧
    forceDeploymentValues (mkDeploymentStack sampleEnv stagingProps) ≠
      forceDeploymentValues (mkDeploymentStack sampleEnvLater stagingProps) :=
  ⟨by decide, c6_force_redeploy sampleEnv sampleEnvLater stagingProps (by decide)⟩

/-- C7: title-casing is idempotent on every non-empty input string. -/
theorem c7_titlecase_idempotent (s : String) (h : s ≠ "") :
    stageTitleCase (stageTitleCase s) = stageTitleCase s := by
  simp only [stageTitleCase, data_asString, (titleCaseScan_idem s.data).1]

/-- Witness for C7 at the non-empty input "staging". -/
theorem c7_titlecase_idempotent_witness :
    ("staging" : String) ≠ "" ∧
    stageTitleCase (stageTitleCase "staging") = stageTitleCase "staging" :=
  ⟨by decide, c7_titlecase_idempotent "staging" (by decide)⟩

/-- C8: the title-casing examples: "production" ↦ "Production" and
"user-acc test" ↦ "User-acc Test" (tokens are capitalized independently and
internal punctuation survives). -/
theorem c8_titlecase_examples :
    stageTitleCase "production" = "Production" ∧
    stageTitleCase "user-acc test" = "User-acc Test" := by
  constructor <;> decide

/-- C9: no local validation: `stageTitleCase` is total with
`stageTitleCase "" = ""`, and an empty stage name flows into the constructed
resource identifiers (malformed identifiers such as "ECS-Cluster" and
"TaskDef-") instead of being rejected by the constructor. -/
theorem c9_no_local_validation :
    stageTitleCase "" = "" ∧
    ∀ (env : Env) (tag : String),
      (mkDeploymentStack env { stageName := "", imageTag := tag }).clusters.map
          Cluster.id = ["ECS-Cluster"] ∧
      (mkDeploymentStack env { stageName := "", imageTag := tag }).taskDefinitions.map
          FargateTaskDefinition.id = ["TaskDef-"] ∧
      (mkDeploymentStack env { stageName := "", imageTag := tag }).outputs.map
          StackOutput.id = ["LoadBalancerDNS"] :=
  ⟨rfl, fun _ _ => ⟨rfl, rfl, rfl⟩⟩

/-- C10: the execution role's statement is attached with the resource
wildcard "*", while the task role's secret-read permission is scoped to
exactly the resolved secret's ARN with the single action
secretsmanager:GetSecretValue. -/
theorem c10_resource_scoping (env : Env) (props : DeploymentStackProps) :
    ((mkDeploymentStack env props).roles.map fun r => r.policies.map
        PolicyStatement.resources) = [[["*"]], []] ∧
    ((mkDeploymentStack env props).taskDefinitions.map
        FargateTaskDefinition.taskRolePolicies) =
      [[{ effect := Effect.ALLOW
          actions := ["secretsmanager:GetSecretValue"]
          resources := [env.secretArnOfName env.rdsSecretName] }]] :=
  ⟨rfl, rfl⟩

end EcsFargate
